import Mathlib

/-!
The PAM module `pam_fingwit`: the C wrapper around the fingerprint script.

A shallow embedding of `src/pam_fingwit.c`.  The C function `pam_sm_authenticate`
talks to its environment through library calls (`pam_get_user`, `pam_get_item`,
`malloc`, `fork`, `execvp`, `waitpid`); the answers of those calls are collected in
a `World`, and the function is a pure function of the world and of its arguments.
Its result is an `Outcome` together with the list of library calls it made, in order.

Conventions:
* a C `int` is an `Int`; the count `argc` of module arguments is a natural number, and
  `pam_sm_authenticate` computes `argc + 5`, `i + 4` and `argc + 4` without wrap-around;
  the same expressions as the machine computes them, in 32-bit `int` and 64-bit `size_t`,
  are `malloc_request` and `args_index`, and they agree with the former as long as
  `argc + 5 ≤ INT_MAX`;
* a `char *` is a `Ptr`, an optional string, `none` being `NULL`;
* the block returned by `malloc` is a list of cells, and every store into it is
  checked against its length.
-/

namespace PamFingwit

/-! ## Constants of the PAM and C libraries -/

/-- Linux-PAM return code `PAM_SUCCESS` of `<security/_pam_types.h>`. -/
def PAM_SUCCESS : Int := 0
/-- Linux-PAM return code `PAM_SYSTEM_ERR`. -/
def PAM_SYSTEM_ERR : Int := 4
/-- Linux-PAM return code `PAM_BUF_ERR`. -/
def PAM_BUF_ERR : Int := 5
/-- Linux-PAM return code `PAM_AUTH_ERR`. -/
def PAM_AUTH_ERR : Int := 7
/-- Linux-PAM return code `PAM_AUTHINFO_UNAVAIL`. -/
def PAM_AUTHINFO_UNAVAIL : Int := 9
/-- Linux-PAM return code `PAM_USER_UNKNOWN`. -/
def PAM_USER_UNKNOWN : Int := 10

/-- The size of a `char *` in bytes (`sizeof(char*)`). -/
def SIZEOF_PTR : Nat := 8

/-- The macro `WIFEXITED(status)` of `<sys/wait.h>`: `((status) & 0x7f) == 0`. -/
def WIFEXITED (status : Int) : Bool := Int.land status 0x7f == 0

/-- The macro `WEXITSTATUS(status)` of `<sys/wait.h>`: `((status) & 0xff00) >> 8`. -/
def WEXITSTATUS (status : Int) : Int := Int.shiftRight (Int.land status 0xff00) 8

/-- The wait status the kernel reports for a child that called `exit(code)`:
the low eight bits of the code, moved to bits 8 to 15 (`(code & 0xff) << 8`). -/
def W_EXITCODE (code : Int) : Int := Int.land code 0xff * 256

/-! ## Data model -/

/-- A `char *`: `none` is `NULL`. -/
abbrev Ptr := Option String

/-- What `waitpid(pid, &status, 0)` does.  The call has no `WNOHANG`: it returns only
when the child has changed state or the call has failed. -/
inductive WaitResult where
  /-- the child terminated `after` ticks and its wait status was stored -/
  | reaped (after : Nat) (status : Int)
  /-- the call returned `-1` after `after` ticks and stored nothing -/
  | failed (after : Nat)
  /-- the child never terminates: the call never returns -/
  | never
  deriving DecidableEq, Repr

/-- The answers of the environment to the library calls of `pam_sm_authenticate`. -/
structure World where
  /-- `pam_get_user`: the return code and the user name stored through `&user` -/
  get_user : Int × String
  /-- `pam_get_item(pamh, PAM_SERVICE, ..)`: the return code and the item stored -/
  get_item : Int × String
  /-- `malloc`: `none` when it returns `NULL`, else the prior content of the block,
  cell by cell (the block is not initialised) -/
  heap : Option (Nat → Ptr)
  /-- `fork`: the value returned in the process that is followed -/
  fork : Int
  /-- `execvp`: `true` when the process image is replaced, `false` when it returns -/
  execvp : Bool
  /-- the content of the local variable `status` before anything is stored in it -/
  status0 : Int
  /-- `waitpid` -/
  waitpid : WaitResult

/-- A library call, as it appears in the trace of a run. -/
inductive Call where
  | pam_get_user
  | pam_get_item
  | malloc (bytes : Nat)
  | fork
  | setenv (name value : String)
  | execvp (file : String) (args : List Ptr)
  | exit (code : Int)
  | free
  | waitpid
  deriving DecidableEq, Repr

/-- How a run of `pam_sm_authenticate` ends in the process that is followed. -/
inductive Outcome where
  /-- the function returns `code` to libpam -/
  | returned (code : Int)
  /-- `execvp` replaced the process image: the interpreter runs with `args` -/
  | execed (file : String) (args : List Ptr)
  /-- the process terminated through `exit(code)` -/
  | exited (code : Int)
  /-- the function is blocked in `waitpid` for ever -/
  | blocked
  /-- a store outside the allocated block -/
  | fault
  deriving DecidableEq, Repr

/-- A run: how it ends and the library calls made, in order. -/
structure Run where
  outcome : Outcome
  trace : List Call
  deriving DecidableEq, Repr

/-! ## The code -/

/-- The call `malloc(bytes)` for an array of `char *`: `NULL`, or a block of
`bytes / sizeof(char*)` cells with arbitrary content. -/
def malloc (w : World) (bytes : Nat) : Option (List Ptr) :=
  w.heap.map fun cell => (List.range (bytes / SIZEOF_PTR)).map cell

/-- The assignment `args[i] = v`, checked against the size of the block. -/
def store (args : List Ptr) (i : Nat) (v : Ptr) : Option (List Ptr) :=
  if i < args.length then some (args.set i v) else none

/-- Lines 43-45: `for (i = 0; i < argc; i++) args[i + 4] = (char*)argv[i];` -/
def copy_args (argc : Nat) (argv : Nat → String) (args : List Ptr) : Option (List Ptr) :=
  (List.range argc).foldlM (fun a i => store a (i + 4) (some (argv i))) args

/-- Lines 37-46: the argument vector is filled in. -/
def fill_args (script user service : String) (argc : Nat) (argv : Nat → String)
    (args : List Ptr) : Option (List Ptr) := do
  let args ← store args 0 (some "python3")
  let args ← store args 1 (some script)
  let args ← store args 2 (some user)
  let args ← store args 3 (some service)
  let args ← copy_args argc argv args
  store args (argc + 4) none

/-- Lines 62-71: the `switch` on the exit code of the child. -/
def exit_code_to_pam (exit_code : Int) : Int :=
  if exit_code = 0 then PAM_SUCCESS
  else if exit_code = 7 then PAM_AUTH_ERR
  else if exit_code = 9 then PAM_AUTHINFO_UNAVAIL
  else if exit_code = 10 then PAM_USER_UNKNOWN
  else PAM_AUTHINFO_UNAVAIL

/-- Lines 62-71 and 78: what the parent returns for the content of `status`. -/
def status_to_pam (status : Int) : Int :=
  if WIFEXITED status then exit_code_to_pam (WEXITSTATUS status)
  else PAM_AUTHINFO_UNAVAIL

/-- Line 31: the service name handed on, `"unknown"` when the lookup failed. -/
def service_of (w : World) : String :=
  if w.get_item.1 ≠ PAM_SUCCESS then "unknown" else w.get_item.2

/-- The function `pam_sm_authenticate(pamh, flags, argc, argv)` of `src/pam_fingwit.c`.
`script` is the macro `PYTHON_SCRIPT`, whose value is fixed when the module is built;
`pamh` is read through the world; `flags` is not used by the code. -/
def pam_sm_authenticate (script : String) (w : World) (argc : Nat) (argv : Nat → String) :
    Run :=
  -- ret = pam_get_user(pamh, &user, NULL); if (ret != PAM_SUCCESS) return ret;
  let ret := w.get_user.1
  let user := w.get_user.2
  if ret ≠ PAM_SUCCESS then ⟨.returned ret, [.pam_get_user]⟩ else
  -- ret = pam_get_item(..); if (ret != PAM_SUCCESS) service = "unknown";
  let ret := w.get_item.1
  let service := if ret ≠ PAM_SUCCESS then "unknown" else w.get_item.2
  -- args = malloc((argc + 5) * sizeof(char*)); if (!args) return PAM_BUF_ERR;
  let bytes := (argc + 5) * SIZEOF_PTR
  let t := [.pam_get_user, .pam_get_item, .malloc bytes]
  match malloc w bytes with
  | none => ⟨.returned PAM_BUF_ERR, t⟩
  | some block =>
    match fill_args script user service argc argv block with
    | none => ⟨.fault, t⟩
    | some args =>
      -- pid = fork();
      let pid := w.fork
      let t := t ++ [.fork]
      if pid = 0 then
        -- child: setenv, setenv, execvp("python3", args); exit(PAM_AUTHINFO_UNAVAIL);
        let t := t ++ [.setenv "PAM_USER" user, .setenv "PAM_SERVICE" service,
          .execvp "python3" args]
        if w.execvp then ⟨.execed "python3" args, t⟩
        else ⟨.exited PAM_AUTHINFO_UNAVAIL, t ++ [.exit PAM_AUTHINFO_UNAVAIL]⟩
      else if pid > 0 then
        -- parent: free(args); waitpid(pid, &status, 0);
        let t := t ++ [.free, .waitpid]
        match w.waitpid with
        | .never => ⟨.blocked, t⟩
        | .reaped _ status => ⟨.returned (status_to_pam status), t⟩
        | .failed _ => ⟨.returned (status_to_pam w.status0), t⟩
      else
        -- fork failed: free(args); return PAM_SYSTEM_ERR;
        ⟨.returned PAM_SYSTEM_ERR, t ++ [.free]⟩

/-- The largest `int`. -/
def INT_MAX : Nat := 2147483647

/-- The largest `ptrdiff_t`: no object, and so no block of `malloc`, is larger. -/
def PTRDIFF_MAX : Nat := 9223372036854775807

/-- The result of an `int` operation whose exact value is `x`, as the machine yields it:
`x` reduced modulo `2^32` into `-2^31 .. 2^31 - 1`. -/
def wrap_int (x : Int) : Int := (x + 2147483648) % 4294967296 - 2147483648

/-- The conversion of an `int` to `size_t`: the value modulo `2^64`. -/
def to_size_t (x : Int) : Nat := (x % 18446744073709551616).toNat

/-- Line 34 as the machine computes it: `(argc + 5) * sizeof(char*)`, the sum in `int`,
the product in `size_t`. -/
def malloc_request (argc : Nat) : Nat :=
  (to_size_t (wrap_int ((argc : Int) + 5)) * SIZEOF_PTR) % 18446744073709551616

/-- Lines 44 and 46 as the machine computes them: the index `i + 4`, in `int`. -/
def args_index (i : Nat) : Int := wrap_int ((i : Int) + 4)

/-- The argument vector the claims speak of:
`python3 PYTHON_SCRIPT user service argv[0] .. argv[argc-1] NULL`. -/
def expected_args (script user service : String) (argc : Nat) (argv : Nat → String) :
    List Ptr :=
  some "python3" :: some script :: some user :: some service ::
    ((List.range argc).map fun i => some (argv i)) ++ [none]

/-- A world for the examples: user `alice`, service `login`, every call succeeds,
the process followed is the parent, and the child exits with code `0` after 3 ticks. -/
def w_ok : World :=
  { get_user := (0, "alice"), get_item := (0, "login"), heap := some fun _ => some "junk",
    fork := 4242, execvp := true, status0 := 0, waitpid := .reaped 3 0 }

/-- The module arguments of the examples: `debug`, `timeout=10`. -/
def argv2 : Nat → String := fun i => if i = 0 then "debug" else "timeout=10"

/-- A value of `PYTHON_SCRIPT` for the examples. -/
def script0 : String := "/usr/lib/fingwit/pam_fingwit.py"

/-- The world `w_ok` with another answer of `waitpid`. -/
def w_wait (r : WaitResult) : World := { w_ok with waitpid := r }

/-- The world `w_ok` followed in the child, where `execvp` succeeds or not. -/
def w_child (execvp : Bool) : World := { w_ok with fork := 0, execvp := execvp }

/-- The world `w_ok` in which `pam_get_user` returns `code`. -/
def w_no_user (code : Int) : World := { w_ok with get_user := (code, "") }

/-- The world `w_ok` in which `malloc` returns `NULL`. -/
def w_no_memory : World := { w_ok with heap := none }

/-- The world `w_ok` in which `fork` returns `-1`. -/
def w_no_fork : World := { w_ok with fork := -1 }

/-- The world `w_ok` in which `waitpid` fails and `status` holds `stale`. -/
def w_wait_failed (stale : Int) : World :=
  { w_ok with waitpid := .failed 1, status0 := stale }

/-- What the child process does after `fork`. -/
inductive ChildFate where
  /-- it terminates through `exit(code)` after `after` ticks (its own `exit` when
  `execvp` failed, or the exit of the interpreter) -/
  | exits (after : Nat) (code : Int)
  /-- it is killed by signal `signal` after `after` ticks -/
  | killed (after : Nat) (signal : Int)
  /-- it never terminates -/
  | runs_forever
  deriving DecidableEq, Repr

/-- The answer of `waitpid(pid, &status, 0)` in the parent of a child of fate `fate`.
With `failure = some t` the call returns `-1` after `t` ticks and stores nothing
(`EINTR`, or `ECHILD` when the application ignores `SIGCHLD`); otherwise it waits for
the child and stores its wait status. -/
def waitpid_answer (fate : ChildFate) (failure : Option Nat) : WaitResult :=
  match failure, fate with
  | some t, _ => .failed t
  | none, .exits t code => .reaped t (W_EXITCODE code)
  | none, .killed t signal => .reaped t (Int.land signal 0x7f)
  | none, .runs_forever => .never

/-- The world `w_ok` with a child of fate `fate`, a wait that fails or not, and `stale`
as the content of `status` before the wait. -/
def w_scene (fate : ChildFate) (failure : Option Nat) (stale : Int) : World :=
  { w_ok with waitpid := waitpid_answer fate failure, status0 := stale }

/-! ## The argument vector -/

theorem store_eq_some {args : List Ptr} {i : Nat} (v : Ptr) (h : i < args.length) :
    store args i v = some (args.set i v) := by
  simp [store, h]

theorem malloc_length {w : World} {n : Nat} {block : List Ptr}
    (h : malloc w (n * SIZEOF_PTR) = some block) : block.length = n := by
  unfold malloc at h
  cases hh : w.heap with
  | none => simp [hh] at h
  | some cell =>
    simp [hh] at h
    subst h
    simp [SIZEOF_PTR]

theorem store_append_cons (l r : List Ptr) (x v : Ptr) :
    store (l ++ x :: r) l.length v = some (l ++ v :: r) := by
  simp [store]

/-- After `k` rounds of the copy loop the cells `4 .. k+3` hold `argv[0] .. argv[k-1]`
and no other cell has changed. -/
theorem copy_loop_spec (argv : Nat → String) (front rest : List Ptr)
    (hfront : front.length = 4) :
    ∀ k, k ≤ rest.length →
      (List.range k).foldlM (fun a i => store a (i + 4) (some (argv i))) (front ++ rest)
        = some (front ++ (List.range k).map (fun i => some (argv i)) ++ rest.drop k) := by
  intro k
  induction k with
  | zero => intro _; simp
  | succ k ih =>
    intro hk
    have hlt : k < rest.length := hk
    rw [List.range_succ, List.foldlM_append, ih (Nat.le_of_lt hlt)]
    have hdrop : rest.drop k = rest[k] :: rest.drop (k + 1) := List.drop_eq_getElem_cons hlt
    have hlen : (front ++ (List.range k).map (fun i => some (argv i))).length = k + 4 := by
      simp [hfront]; omega
    simp only [List.foldlM, Option.some_bind, Option.bind_eq_bind, hdrop]
    rw [← hlen, store_append_cons]
    simp

/-- Lines 37-46 on a block of `argc + 5` cells: every store is inside the block and
the block ends up holding the expected vector, whatever it held before. -/
theorem fill_args_spec (script user service : String) (argc : Nat) (argv : Nat → String)
    (block : List Ptr) (hlen : block.length = argc + 5) :
    fill_args script user service argc argv block
      = some (expected_args script user service argc argv) := by
  match block, hlen with
  | a :: b :: c :: d :: rest, hlen =>
    have hrest : rest.length = argc + 1 := by simpa using hlen
    have hlt : argc < rest.length := by omega
    have hdrop : rest.drop argc = [rest[argc]] := by
      rw [List.drop_eq_getElem_cons hlt, List.drop_eq_nil_of_le (by omega)]
    have hloop := copy_loop_spec argv
      [some "python3", some script, some user, some service] rest rfl argc (by omega)
    have hl : ([some "python3", some script, some user, some service]
        ++ (List.range argc).map (fun i => some (argv i))).length = argc + 4 := by
      simp
    have h0 : store (a :: b :: c :: d :: rest) 0 (some "python3")
        = some (some "python3" :: b :: c :: d :: rest) := by simp [store]
    have h1 : store (some "python3" :: b :: c :: d :: rest) 1 (some script)
        = some (some "python3" :: some script :: c :: d :: rest) := by simp [store]
    have h2 : store (some "python3" :: some script :: c :: d :: rest) 2 (some user)
        = some (some "python3" :: some script :: some user :: d :: rest) := by simp [store]
    have h3 : store (some "python3" :: some script :: some user :: d :: rest) 3 (some service)
        = some ([some "python3", some script, some user, some service] ++ rest) := by
      simp [store]
    simp only [fill_args, copy_args, Option.bind_eq_bind, h0, h1, h2, h3, Option.some_bind,
      hloop, hdrop]
    rw [← hl, store_append_cons]
    simp [expected_args]

/-! ## The paths through `pam_sm_authenticate` -/

theorem malloc_some {w : World} (hm : w.heap.isSome = true) (bytes : Nat) :
    ∃ block, malloc w bytes = some block := by
  cases hh : w.heap with
  | none => simp [hh] at hm
  | some cell => exact ⟨(List.range (bytes / SIZEOF_PTR)).map cell, by simp [malloc, hh]⟩

/-- The path of the child: `fork` returned `0`. -/
theorem run_child (script : String) (w : World) (argc : Nat) (argv : Nat → String)
    (hu : w.get_user.1 = PAM_SUCCESS) (hm : w.heap.isSome = true) (hf : w.fork = 0) :
    pam_sm_authenticate script w argc argv =
      if w.execvp then
        ⟨.execed "python3" (expected_args script w.get_user.2 (service_of w) argc argv),
          [.pam_get_user, .pam_get_item, .malloc ((argc + 5) * SIZEOF_PTR), .fork,
            .setenv "PAM_USER" w.get_user.2, .setenv "PAM_SERVICE" (service_of w),
            .execvp "python3" (expected_args script w.get_user.2 (service_of w) argc argv)]⟩
      else
        ⟨.exited PAM_AUTHINFO_UNAVAIL,
          [.pam_get_user, .pam_get_item, .malloc ((argc + 5) * SIZEOF_PTR), .fork,
            .setenv "PAM_USER" w.get_user.2, .setenv "PAM_SERVICE" (service_of w),
            .execvp "python3" (expected_args script w.get_user.2 (service_of w) argc argv),
            .exit PAM_AUTHINFO_UNAVAIL]⟩ := by
  obtain ⟨block, hb⟩ := malloc_some hm ((argc + 5) * SIZEOF_PTR)
  have hfill := fill_args_spec script w.get_user.2 (service_of w) argc argv block
    (malloc_length hb)
  simp only [service_of] at hfill
  simp only [pam_sm_authenticate, service_of, hu, hb, hfill, hf]
  simp

/-- The path of the parent: `fork` returned the process id of the child. -/
theorem run_parent (script : String) (w : World) (argc : Nat) (argv : Nat → String)
    (hu : w.get_user.1 = PAM_SUCCESS) (hm : w.heap.isSome = true) (hf : 0 < w.fork) :
    pam_sm_authenticate script w argc argv =
      ⟨match w.waitpid with
        | .never => .blocked
        | .reaped _ status => .returned (status_to_pam status)
        | .failed _ => .returned (status_to_pam w.status0),
        [.pam_get_user, .pam_get_item, .malloc ((argc + 5) * SIZEOF_PTR), .fork,
          .free, .waitpid]⟩ := by
  obtain ⟨block, hb⟩ := malloc_some hm ((argc + 5) * SIZEOF_PTR)
  have hfill := fill_args_spec script w.get_user.2 (service_of w) argc argv block
    (malloc_length hb)
  simp only [service_of] at hfill
  have hne : w.fork ≠ 0 := by omega
  simp only [pam_sm_authenticate, hu, hb, hfill]
  cases hw : w.waitpid <;> simp [hne, hf]

/-- The path on which `fork` failed. -/
theorem run_fork_failed (script : String) (w : World) (argc : Nat) (argv : Nat → String)
    (hu : w.get_user.1 = PAM_SUCCESS) (hm : w.heap.isSome = true) (hf : w.fork < 0) :
    pam_sm_authenticate script w argc argv =
      ⟨.returned PAM_SYSTEM_ERR,
        [.pam_get_user, .pam_get_item, .malloc ((argc + 5) * SIZEOF_PTR), .fork, .free]⟩ := by
  obtain ⟨block, hb⟩ := malloc_some hm ((argc + 5) * SIZEOF_PTR)
  have hfill := fill_args_spec script w.get_user.2 (service_of w) argc argv block
    (malloc_length hb)
  simp only [service_of] at hfill
  have hne : w.fork ≠ 0 := by omega
  have hnp : ¬ w.fork > 0 := by omega
  simp only [pam_sm_authenticate, hu, hb, hfill]
  simp [hne, hnp]

/-- The path on which `malloc` returned `NULL`. -/
theorem run_malloc_failed (script : String) (w : World) (argc : Nat) (argv : Nat → String)
    (hu : w.get_user.1 = PAM_SUCCESS) (hm : w.heap = none) :
    pam_sm_authenticate script w argc argv =
      ⟨.returned PAM_BUF_ERR,
        [.pam_get_user, .pam_get_item, .malloc ((argc + 5) * SIZEOF_PTR)]⟩ := by
  have hb : malloc w ((argc + 5) * SIZEOF_PTR) = none := by simp [malloc, hm]
  simp only [pam_sm_authenticate, hu, hb]
  simp

/-- The path on which `pam_get_user` failed. -/
theorem run_no_user (script : String) (w : World) (argc : Nat) (argv : Nat → String)
    (hu : w.get_user.1 ≠ PAM_SUCCESS) :
    pam_sm_authenticate script w argc argv = ⟨.returned w.get_user.1, [.pam_get_user]⟩ := by
  simp [pam_sm_authenticate, hu]

theorem status_to_pam_exited {st : Int} (hx : WIFEXITED st = true) :
    status_to_pam st = exit_code_to_pam (WEXITSTATUS st) := by
  simp [status_to_pam, hx]

theorem status_to_pam_not_exited {st : Int} (hx : WIFEXITED st = false) :
    status_to_pam st = PAM_AUTHINFO_UNAVAIL := by
  simp [status_to_pam, hx]

theorem exit_code_to_pam_eq_success (c : Int) : exit_code_to_pam c = PAM_SUCCESS ↔ c = 0 := by
  unfold exit_code_to_pam
  split_ifs <;> simp_all [PAM_SUCCESS, PAM_AUTH_ERR, PAM_AUTHINFO_UNAVAIL, PAM_USER_UNKNOWN]

set_option maxRecDepth 100000 in
/-- Every exit code `0 .. 255` is the exit code of a wait status of a normal exit. -/
theorem W_EXITCODE_exited :
    ∀ c : Fin 256, WIFEXITED (W_EXITCODE c) = true ∧ WEXITSTATUS (W_EXITCODE c) = c := by
  decide

theorem ldiff_mask_lt (m : Nat) : Nat.ldiff 0xff00 m < 2 ^ 16 := by
  apply Nat.lt_pow_two_of_testBit
  intro i hi
  rw [Nat.testBit_ldiff]
  have hbit : Nat.testBit 0xff00 i = false :=
    Nat.testBit_lt_two_pow
      (lt_of_lt_of_le (by norm_num) (Nat.pow_le_pow_right (by norm_num) hi))
  simp [hbit]

/-- The exit code read from any content of `status` is in `0 .. 255`. -/
theorem WEXITSTATUS_range (st : Int) : 0 ≤ WEXITSTATUS st ∧ WEXITSTATUS st ≤ 255 := by
  unfold WEXITSTATUS
  cases st with
  | ofNat m =>
    show 0 ≤ Int.ofNat ((m &&& 0xff00) >>> 8) ∧ Int.ofNat ((m &&& 0xff00) >>> 8) ≤ 255
    have h1 : m &&& 0xff00 ≤ 0xff00 := Nat.and_le_right
    have h2 : (m &&& 0xff00) >>> 8 ≤ 255 := by
      rw [Nat.shiftRight_eq_div_pow]; omega
    exact ⟨Int.ofNat_nonneg _, Int.ofNat_le.mpr h2⟩
  | negSucc m =>
    show 0 ≤ Int.ofNat ((Nat.ldiff 0xff00 m) >>> 8)
      ∧ Int.ofNat ((Nat.ldiff 0xff00 m) >>> 8) ≤ 255
    have h1 := ldiff_mask_lt m
    have h2 : (Nat.ldiff 0xff00 m) >>> 8 ≤ 255 := by
      rw [Nat.shiftRight_eq_div_pow]; omega
    exact ⟨Int.ofNat_nonneg _, Int.ofNat_le.mpr h2⟩

/-! ## The claims -/

/-- C1: once user lookup, allocation and fork have succeeded and the child's wait status
denotes a normal exit with exit code `c` (which is then in `0 .. 255`), the function
returns `PAM_SUCCESS` for `c = 0`, `PAM_AUTH_ERR` for `c = 7`, `PAM_AUTHINFO_UNAVAIL` for
`c = 9`, `PAM_USER_UNKNOWN` for `c = 10` and `PAM_AUTHINFO_UNAVAIL` for every other `c`. -/
theorem exit_code_mapping (script : String) (w : World) (argc : Nat) (argv : Nat → String)
    (t : Nat) (st c : Int)
    (hu : w.get_user.1 = PAM_SUCCESS) (hm : w.heap.isSome = true) (hf : 0 < w.fork)
    (hw : w.waitpid = .reaped t st) (hx : WIFEXITED st = true) (hc : WEXITSTATUS st = c) :
    (0 ≤ c ∧ c ≤ 255) ∧
    (c = 0 → (pam_sm_authenticate script w argc argv).outcome = .returned PAM_SUCCESS) ∧
    (c = 7 → (pam_sm_authenticate script w argc argv).outcome = .returned PAM_AUTH_ERR) ∧
    (c = 9 →
      (pam_sm_authenticate script w argc argv).outcome = .returned PAM_AUTHINFO_UNAVAIL) ∧
    (c = 10 →
      (pam_sm_authenticate script w argc argv).outcome = .returned PAM_USER_UNKNOWN) ∧
    (c ≠ 0 → c ≠ 7 → c ≠ 9 → c ≠ 10 →
      (pam_sm_authenticate script w argc argv).outcome = .returned PAM_AUTHINFO_UNAVAIL) := by
  have hrun : (pam_sm_authenticate script w argc argv).outcome
      = .returned (exit_code_to_pam c) := by
    rw [run_parent script w argc argv hu hm hf, hw]
    simp only [status_to_pam_exited hx, hc]
  rw [hrun]
  refine ⟨hc ▸ WEXITSTATUS_range st, ?_, ?_, ?_, ?_, ?_⟩
  · intro h; subst h; rfl
  · intro h; subst h; rfl
  · intro h; subst h; rfl
  · intro h; subst h; rfl
  · intro h0 h7 h9 h10; simp [exit_code_to_pam, h0, h7, h9, h10]

/-- C1, at a child that exits with code 7 after 3 ticks. -/
theorem exit_code_mapping_witness :
    (w_wait (.reaped 3 0x0700)).get_user.1 = PAM_SUCCESS ∧
    (w_wait (.reaped 3 0x0700)).heap.isSome = true ∧
    0 < (w_wait (.reaped 3 0x0700)).fork ∧
    WIFEXITED 0x0700 = true ∧ WEXITSTATUS 0x0700 = 7 ∧
    (pam_sm_authenticate script0 (w_wait (.reaped 3 0x0700)) 2 argv2).outcome
      = .returned PAM_AUTH_ERR :=
  ⟨rfl, rfl, by decide, by decide, by decide,
    (exit_code_mapping script0 (w_wait (.reaped 3 0x0700)) 2 argv2 3 0x0700 7
      rfl rfl (by decide) rfl (by decide) (by decide)).2.2.1 rfl⟩

theorem status_to_pam_eq_success (st : Int) :
    status_to_pam st = PAM_SUCCESS ↔ WIFEXITED st = true ∧ WEXITSTATUS st = 0 := by
  cases hx : WIFEXITED st with
  | true => simp [status_to_pam_exited hx, exit_code_to_pam_eq_success]
  | false => simp [status_to_pam_not_exited hx, PAM_AUTHINFO_UNAVAIL, PAM_SUCCESS]

/-- On the paths where `waitpid` stores a wait status the function is fail-closed: it
returns `PAM_SUCCESS` if and only if the user lookup succeeded, the allocation succeeded,
the fork succeeded and the child exited normally with exit code 0; and in the calling
process (where `fork` did not return 0) every path returns some code. -/
theorem fail_closed_of_reaped (script : String) (w : World) (argc : Nat)
    (argv : Nat → String) (t : Nat) (st : Int) (hw : w.waitpid = .reaped t st) :
    ((pam_sm_authenticate script w argc argv).outcome = .returned PAM_SUCCESS ↔
      w.get_user.1 = PAM_SUCCESS ∧ w.heap.isSome = true ∧ 0 < w.fork ∧
        WIFEXITED st = true ∧ WEXITSTATUS st = 0) ∧
    (w.fork ≠ 0 → ∃ r, (pam_sm_authenticate script w argc argv).outcome = .returned r) := by
  by_cases hu : w.get_user.1 = PAM_SUCCESS
  · cases hh : w.heap with
    | none =>
      rw [run_malloc_failed script w argc argv hu hh]
      exact ⟨by simp [PAM_BUF_ERR, PAM_SUCCESS], fun _ => ⟨_, rfl⟩⟩
    | some cell =>
      have hm : w.heap.isSome = true := by simp [hh]
      rcases lt_trichotomy w.fork 0 with hf | hf | hf
      · rw [run_fork_failed script w argc argv hu hm hf]
        refine ⟨?_, fun _ => ⟨_, rfl⟩⟩
        have hnp : ¬ 0 < w.fork := by omega
        simp [PAM_SYSTEM_ERR, PAM_SUCCESS, hnp]
      · rw [run_child script w argc argv hu hm hf]
        refine ⟨?_, fun h => absurd hf h⟩
        cases w.execvp <;> simp [hf]
      · rw [run_parent script w argc argv hu hm hf, hw]
        refine ⟨?_, fun _ => ⟨_, rfl⟩⟩
        simp [hu, hf, status_to_pam_eq_success]
  · rw [run_no_user script w argc argv hu]
    exact ⟨by simp [hu], fun _ => ⟨_, rfl⟩⟩

/-- C2 at the failing input: the child is killed by signal 9, `waitpid` fails and stores
nothing, and `status` holds 0 from before.  The function returns `PAM_SUCCESS` although
no child exited with code 0; with the same child and a wait that stores the status it
returns `PAM_AUTHINFO_UNAVAIL`. -/
theorem fail_open_on_wait_failure :
    waitpid_answer (.killed 2 9) (some 2) = .failed 2 ∧
    (pam_sm_authenticate script0 (w_scene (.killed 2 9) (some 2) 0) 2 argv2).outcome
      = .returned PAM_SUCCESS ∧
    waitpid_answer (.killed 2 9) none = .reaped 2 9 ∧
    (pam_sm_authenticate script0 (w_scene (.killed 2 9) none 0) 2 argv2).outcome
      = .returned PAM_AUTHINFO_UNAVAIL := by
  decide

theorem service_of_eq (w : World) :
    service_of w = if w.get_item.1 = PAM_SUCCESS then w.get_item.2 else "unknown" := by
  unfold service_of
  split_ifs <;> simp_all

theorem expected_args_getElem_copy (script user service : String) (argc : Nat)
    (argv : Nat → String) (i : Nat) (hi : i < argc) :
    (expected_args script user service argc argv)[i + 4]? = some (some (argv i)) := by
  simp [expected_args, List.getElem?_append_left, hi]

theorem expected_args_getElem_last (script user service : String) (argc : Nat)
    (argv : Nat → String) :
    (expected_args script user service argc argv)[argc + 4]? = some none := by
  simp [expected_args, List.getElem?_append_right]

theorem malloc_request_eq (argc : Nat) (h : argc + 5 ≤ INT_MAX) :
    malloc_request argc = (argc + 5) * SIZEOF_PTR := by
  unfold malloc_request to_size_t wrap_int SIZEOF_PTR
  unfold INT_MAX at h
  omega

theorem args_index_eq (i argc : Nat) (h : argc + 5 ≤ INT_MAX) (hi : i ≤ argc) :
    args_index i = ((i + 4 : Nat) : Int) := by
  unfold args_index wrap_int
  unfold INT_MAX at h
  omega

/-- At the five counts where `argc + 5` overflows `int`, line 34 asks `malloc` for more
than `PTRDIFF_MAX` bytes. -/
theorem malloc_request_overflow (argc : Nat) (h : argc ≤ INT_MAX) (ho : INT_MAX < argc + 5) :
    PTRDIFF_MAX < malloc_request argc := by
  unfold malloc_request to_size_t wrap_int SIZEOF_PTR PTRDIFF_MAX
  unfold INT_MAX at h ho
  omega

/-- C3: for every count `argc` of module arguments that an `int` holds, with the user
lookup and the allocation successful.  As long as `argc + 5` does not overflow `int`,
the machine arithmetic of lines 34, 44 and 46 has its exact value, the block obtained
from `malloc` has `argc + 5` cells, every store of the code is inside it whatever it held
before, and the vector handed to `execvp` in the child is
`python3, PYTHON_SCRIPT, u, s, argv[0], .., argv[argc-1], NULL`, with `s` the service
item when its lookup succeeded and `"unknown"` otherwise: `argc + 5` entries, entry
`i + 4` being `argv[i]` and entry `argc + 4` being `NULL`.  At the remaining counts line
34 asks `malloc` for more than `PTRDIFF_MAX` bytes, and when `malloc` refuses the function
returns `PAM_BUF_ERR` and no vector is handed to `execvp`. -/
theorem argument_vector (script : String) (w : World) (argc : Nat) (argv : Nat → String)
    (hu : w.get_user.1 = PAM_SUCCESS) (hm : w.heap.isSome = true) (hf : w.fork = 0)
    (hint : argc ≤ INT_MAX) :
    (argc + 5 ≤ INT_MAX →
      malloc_request argc = (argc + 5) * SIZEOF_PTR ∧
      (∀ i, i < argc → args_index i = ((i + 4 : Nat) : Int)) ∧
      args_index argc = ((argc + 4 : Nat) : Int) ∧
      Call.malloc (malloc_request argc) ∈ (pam_sm_authenticate script w argc argv).trace ∧
      expected_args script w.get_user.2
          (if w.get_item.1 = PAM_SUCCESS then w.get_item.2 else "unknown") argc argv
        = some "python3" :: some script :: some w.get_user.2 ::
            some (if w.get_item.1 = PAM_SUCCESS then w.get_item.2 else "unknown") ::
            ((List.range argc).map fun i => some (argv i)) ++ [none] ∧
      Call.execvp "python3" (expected_args script w.get_user.2
          (if w.get_item.1 = PAM_SUCCESS then w.get_item.2 else "unknown") argc argv)
        ∈ (pam_sm_authenticate script w argc argv).trace ∧
      (w.execvp = true → (pam_sm_authenticate script w argc argv).outcome
        = .execed "python3" (expected_args script w.get_user.2
            (if w.get_item.1 = PAM_SUCCESS then w.get_item.2 else "unknown") argc argv)) ∧
      (expected_args script w.get_user.2
          (if w.get_item.1 = PAM_SUCCESS then w.get_item.2 else "unknown") argc argv).length
        = argc + 5 ∧
      (∀ i, i < argc → (expected_args script w.get_user.2
          (if w.get_item.1 = PAM_SUCCESS then w.get_item.2 else "unknown") argc argv)[i + 4]?
        = some (some (argv i))) ∧
      (expected_args script w.get_user.2
          (if w.get_item.1 = PAM_SUCCESS then w.get_item.2 else "unknown") argc
          argv)[argc + 4]?
        = some none ∧
      (∀ block, malloc w (malloc_request argc) = some block →
        block.length = argc + 5 ∧
        fill_args script w.get_user.2
            (if w.get_item.1 = PAM_SUCCESS then w.get_item.2 else "unknown") argc argv block
          = some (expected_args script w.get_user.2
            (if w.get_item.1 = PAM_SUCCESS then w.get_item.2 else "unknown") argc argv)) ∧
      (pam_sm_authenticate script w argc argv).outcome ≠ .fault) ∧
    (INT_MAX < argc + 5 →
      PTRDIFF_MAX < malloc_request argc ∧
      (pam_sm_authenticate script { w with heap := none } argc argv).outcome
        = .returned PAM_BUF_ERR ∧
      (∀ file args, Call.execvp file args
        ∉ (pam_sm_authenticate script { w with heap := none } argc argv).trace)) := by
  refine ⟨?_, fun ho => ⟨malloc_request_overflow argc hint ho, ?_⟩⟩
  swap
  · rw [run_malloc_failed script { w with heap := none } argc argv hu rfl]
    simp
  intro hb
  rw [← service_of_eq, malloc_request_eq argc hb]
  have hrun := run_child script w argc argv hu hm hf
  refine ⟨rfl, ?_, ?_, ?_, rfl, ?_, ?_, ?_, ?_, ?_, ?_, ?_⟩
  · exact fun i hi => args_index_eq i argc hb (Nat.le_of_lt hi)
  · exact args_index_eq argc argc hb (Nat.le_refl argc)
  · rw [hrun]; cases w.execvp <;> simp
  · rw [hrun]; cases w.execvp <;> simp
  · intro he; rw [hrun, he]; rfl
  · simp [expected_args]
  · exact fun i hi => expected_args_getElem_copy _ _ _ _ _ i hi
  · exact expected_args_getElem_last _ _ _ _ _
  · intro block hblock
    exact ⟨malloc_length hblock, fill_args_spec _ _ _ _ _ block (malloc_length hblock)⟩
  · rw [hrun]; cases w.execvp <;> simp

/-- C3, at user `alice`, service `login` and the module arguments `debug timeout=10`:
56 bytes are asked for and the child is run with the seven expected entries. -/
theorem argument_vector_witness :
    (w_child true).get_user.1 = PAM_SUCCESS ∧ (w_child true).heap.isSome = true ∧
    (w_child true).fork = 0 ∧ 2 ≤ INT_MAX ∧ 2 + 5 ≤ INT_MAX ∧ malloc_request 2 = 56 ∧
    (pam_sm_authenticate script0 (w_child true) 2 argv2).outcome
      = .execed "python3" [some "python3", some "/usr/lib/fingwit/pam_fingwit.py",
          some "alice", some "login", some "debug", some "timeout=10", none] :=
  ⟨rfl, rfl, rfl, by decide, by decide,
    ((argument_vector script0 (w_child true) 2 argv2 rfl rfl rfl (by decide)).1
      (by decide)).1,
    ((argument_vector script0 (w_child true) 2 argv2 rfl rfl rfl (by decide)).1
      (by decide)).2.2.2.2.2.2.1 rfl⟩

/-- When `waitpid` stores the wait status of a normally exiting child, the function
returns `PAM_USER_UNKNOWN` exactly when the exit code is 10 and `PAM_AUTH_ERR` exactly
when the exit code is 7, and the two codes are distinct. -/
theorem user_unknown_of_reaped (script : String) (w : World) (argc : Nat)
    (argv : Nat → String) (t : Nat) (st : Int)
    (hu : w.get_user.1 = PAM_SUCCESS) (hm : w.heap.isSome = true) (hf : 0 < w.fork)
    (hw : w.waitpid = .reaped t st) (hx : WIFEXITED st = true) :
    ((pam_sm_authenticate script w argc argv).outcome = .returned PAM_USER_UNKNOWN ↔
      WEXITSTATUS st = 10) ∧
    ((pam_sm_authenticate script w argc argv).outcome = .returned PAM_AUTH_ERR ↔
      WEXITSTATUS st = 7) ∧
    PAM_USER_UNKNOWN ≠ PAM_AUTH_ERR := by
  rw [run_parent script w argc argv hu hm hf, hw]
  simp only [status_to_pam_exited hx, exit_code_to_pam]
  refine ⟨?_, ?_, by decide⟩
  · split_ifs <;>
      simp_all [PAM_SUCCESS, PAM_AUTH_ERR, PAM_AUTHINFO_UNAVAIL, PAM_USER_UNKNOWN]
  · split_ifs <;>
      simp_all [PAM_SUCCESS, PAM_AUTH_ERR, PAM_AUTHINFO_UNAVAIL, PAM_USER_UNKNOWN]

/-- C4 at the failing input: `waitpid` fails and stores nothing.  A child that exits
normally with code 7 (no match) makes the function return `PAM_USER_UNKNOWN` when
`status` held `0x0a00` before, and a child that exits with code 10 (user unknown) makes
it return `PAM_AUTH_ERR` when `status` held `0x0700`; with a wait that stores the status
the same children give `PAM_AUTH_ERR` and `PAM_USER_UNKNOWN`. -/
theorem user_unknown_conflated_on_wait_failure :
    waitpid_answer (.exits 3 7) (some 3) = .failed 3 ∧
    (pam_sm_authenticate script0 (w_scene (.exits 3 7) (some 3) 0x0a00) 2 argv2).outcome
      = .returned PAM_USER_UNKNOWN ∧
    (pam_sm_authenticate script0 (w_scene (.exits 3 10) (some 3) 0x0700) 2 argv2).outcome
      = .returned PAM_AUTH_ERR ∧
    (pam_sm_authenticate script0 (w_scene (.exits 3 7) none 0x0a00) 2 argv2).outcome
      = .returned PAM_AUTH_ERR ∧
    (pam_sm_authenticate script0 (w_scene (.exits 3 10) none 0x0700) 2 argv2).outcome
      = .returned PAM_USER_UNKNOWN := by
  decide

/-- C6 fails on the code: a child that never terminates leaves the function blocked in
`waitpid`, and a child that exits with code 0 after a million ticks still gives
`PAM_SUCCESS`; neither run returns `PAM_AUTHINFO_UNAVAIL`. -/
theorem timeout_counterexample :
    (pam_sm_authenticate script0 (w_wait .never) 2 argv2).outcome = .blocked ∧
    (pam_sm_authenticate script0 (w_wait .never) 2 argv2).outcome
      ≠ .returned PAM_AUTHINFO_UNAVAIL ∧
    (pam_sm_authenticate script0 (w_wait (.reaped 1000000 0)) 2 argv2).outcome
      = .returned PAM_SUCCESS ∧
    (pam_sm_authenticate script0 (w_wait (.reaped 1000000 0)) 2 argv2).outcome
      ≠ .returned PAM_AUTHINFO_UNAVAIL := by
  decide

/-- C6 as amended: there is no timeout.  Once user lookup, allocation and fork have
succeeded, the function is blocked for ever exactly when `waitpid` never returns; when
`waitpid` stores a wait status, the run is the same whatever the time the child took,
`PAM_AUTHINFO_UNAVAIL` is returned exactly when the status is not a normal exit or its
exit code is none of 0, 7 and 10, and a normal exit with code 0 gives `PAM_SUCCESS`
however late. -/
theorem no_timeout (script : String) (w : World) (argc : Nat) (argv : Nat → String)
    (hu : w.get_user.1 = PAM_SUCCESS) (hm : w.heap.isSome = true) (hf : 0 < w.fork) :
    ((pam_sm_authenticate script w argc argv).outcome = .blocked ↔ w.waitpid = .never) ∧
    (∀ t st, w.waitpid = .reaped t st → ∀ t2,
      pam_sm_authenticate script { w with waitpid := .reaped t2 st } argc argv
        = pam_sm_authenticate script w argc argv) ∧
    (∀ t st, w.waitpid = .reaped t st →
      ((pam_sm_authenticate script w argc argv).outcome = .returned PAM_AUTHINFO_UNAVAIL ↔
        (WIFEXITED st = false ∨
          (WEXITSTATUS st ≠ 0 ∧ WEXITSTATUS st ≠ 7 ∧ WEXITSTATUS st ≠ 10)))) ∧
    (∀ t st, w.waitpid = .reaped t st → WIFEXITED st = true → WEXITSTATUS st = 0 →
      (pam_sm_authenticate script w argc argv).outcome = .returned PAM_SUCCESS) := by
  refine ⟨?_, ?_, ?_, ?_⟩
  · rw [run_parent script w argc argv hu hm hf]
    cases hw : w.waitpid <;> simp
  · intro t st hw t2
    rw [run_parent script w argc argv hu hm hf, hw,
      run_parent script { w with waitpid := .reaped t2 st } argc argv hu hm hf]
  · intro t st hw
    rw [run_parent script w argc argv hu hm hf, hw]
    cases hx : WIFEXITED st with
    | false => simp [status_to_pam_not_exited hx]
    | true =>
      simp only [status_to_pam_exited hx, exit_code_to_pam]
      split_ifs <;>
        simp_all [PAM_SUCCESS, PAM_AUTH_ERR, PAM_AUTHINFO_UNAVAIL, PAM_USER_UNKNOWN]
  · intro t st hw hx hc
    rw [run_parent script w argc argv hu hm hf, hw]
    simp only [(status_to_pam_eq_success st).mpr ⟨hx, hc⟩]

/-- C6 as amended, at a child that never terminates and at one that exits with code 0
after a million ticks. -/
theorem no_timeout_witness :
    (w_wait .never).get_user.1 = PAM_SUCCESS ∧ (w_wait .never).heap.isSome = true ∧
    0 < (w_wait .never).fork ∧
    (pam_sm_authenticate script0 (w_wait .never) 2 argv2).outcome = .blocked ∧
    (pam_sm_authenticate script0 (w_wait (.reaped 1000000 0)) 2 argv2).outcome
      ≠ .returned PAM_AUTHINFO_UNAVAIL :=
  ⟨rfl, rfl, by decide,
    (no_timeout script0 (w_wait .never) 2 argv2 rfl rfl (by decide)).1.mpr rfl,
    fun h => absurd
      (((no_timeout script0 (w_wait (.reaped 1000000 0)) 2 argv2 rfl rfl
        (by decide)).2.2.1 1000000 0 rfl).mp h) (by decide)⟩

/-- C7 at the failing input: `waitpid` fails and stores nothing, and the function reads
the stale content of `status`.  With stale content 0 it returns `PAM_SUCCESS`, with
`0x0700` it returns `PAM_AUTH_ERR`, with `0x0009` it returns `PAM_AUTHINFO_UNAVAIL`:
the result is decided by the unwritten variable. -/
theorem wait_failure_reads_stale_status :
    (pam_sm_authenticate script0 (w_wait_failed 0) 2 argv2).outcome
      = .returned PAM_SUCCESS ∧
    (pam_sm_authenticate script0 (w_wait_failed 0x0700) 2 argv2).outcome
      = .returned PAM_AUTH_ERR ∧
    (pam_sm_authenticate script0 (w_wait_failed 0x0009) 2 argv2).outcome
      = .returned PAM_AUTHINFO_UNAVAIL := by
  decide

/-- C8: if `pam_get_user` returns a code other than `PAM_SUCCESS`, the function returns
exactly that code and `pam_get_user` is the only library call of the run: no service
lookup, no allocation, no fork, no wait. -/
theorem user_lookup_failure (script : String) (w : World) (argc : Nat)
    (argv : Nat → String) (hu : w.get_user.1 ≠ PAM_SUCCESS) :
    (pam_sm_authenticate script w argc argv).outcome = .returned w.get_user.1 ∧
    (pam_sm_authenticate script w argc argv).trace = [.pam_get_user] := by
  rw [run_no_user script w argc argv hu]
  exact ⟨rfl, rfl⟩

/-- C8, at a user lookup that returns `PAM_USER_UNKNOWN`. -/
theorem user_lookup_failure_witness :
    (w_no_user PAM_USER_UNKNOWN).get_user.1 ≠ PAM_SUCCESS ∧
    (pam_sm_authenticate script0 (w_no_user PAM_USER_UNKNOWN) 2 argv2).outcome
      = .returned PAM_USER_UNKNOWN ∧
    (pam_sm_authenticate script0 (w_no_user PAM_USER_UNKNOWN) 2 argv2).trace
      = [.pam_get_user] :=
  ⟨by decide, user_lookup_failure script0 (w_no_user PAM_USER_UNKNOWN) 2 argv2 (by decide)⟩

/-- When `execvp` fails in the child, the child exits with `PAM_AUTHINFO_UNAVAIL`; a
parent whose `waitpid` stores the wait status of that exit returns `PAM_AUTHINFO_UNAVAIL`;
and when `waitpid` stores the wait status of an exit with code 0, 7, 9 or 10 the code
returned by the parent is numerically that exit code, the four PAM codes being 0, 7, 9
and 10. -/
theorem exec_failure_of_reaped (script : String) (wc wp : World) (argc : Nat)
    (argv : Nat → String) (t : Nat)
    (huc : wc.get_user.1 = PAM_SUCCESS) (hmc : wc.heap.isSome = true) (hfc : wc.fork = 0)
    (hec : wc.execvp = false)
    (hup : wp.get_user.1 = PAM_SUCCESS) (hmp : wp.heap.isSome = true) (hfp : 0 < wp.fork) :
    (pam_sm_authenticate script wc argc argv).outcome = .exited PAM_AUTHINFO_UNAVAIL ∧
    (wp.waitpid = .reaped t (W_EXITCODE PAM_AUTHINFO_UNAVAIL) →
      (pam_sm_authenticate script wp argc argv).outcome = .returned PAM_AUTHINFO_UNAVAIL) ∧
    (∀ c : Int, c = 0 ∨ c = 7 ∨ c = 9 ∨ c = 10 → wp.waitpid = .reaped t (W_EXITCODE c) →
      (pam_sm_authenticate script wp argc argv).outcome = .returned c) ∧
    PAM_SUCCESS = 0 ∧ PAM_AUTH_ERR = 7 ∧ PAM_AUTHINFO_UNAVAIL = 9 ∧ PAM_USER_UNKNOWN = 10 := by
  refine ⟨?_, ?_, ?_, rfl, rfl, rfl, rfl⟩
  · rw [run_child script wc argc argv huc hmc hfc, hec]
    rfl
  · intro hw
    rw [run_parent script wp argc argv hup hmp hfp, hw]
    show Outcome.returned (status_to_pam (W_EXITCODE PAM_AUTHINFO_UNAVAIL)) = _
    exact congrArg Outcome.returned (by decide)
  · intro c hc hw
    rw [run_parent script wp argc argv hup hmp hfp, hw]
    show Outcome.returned (status_to_pam (W_EXITCODE c)) = _
    rcases hc with h | h | h | h <;> subst h <;> exact congrArg Outcome.returned (by decide)

/-- C9 at the failing input: `execvp` fails in the child, which exits with
`PAM_AUTHINFO_UNAVAIL`; in the parent `waitpid` fails and stores nothing, `status` holds
0 from before, and the function returns `PAM_SUCCESS`.  With a wait that stores the
status of that exit the parent returns `PAM_AUTHINFO_UNAVAIL`. -/
theorem exec_failure_lost_on_wait_failure :
    (pam_sm_authenticate script0 (w_child false) 2 argv2).outcome
      = .exited PAM_AUTHINFO_UNAVAIL ∧
    waitpid_answer (.exits 1 PAM_AUTHINFO_UNAVAIL) (some 1) = .failed 1 ∧
    (pam_sm_authenticate script0
        (w_scene (.exits 1 PAM_AUTHINFO_UNAVAIL) (some 1) 0) 2 argv2).outcome
      = .returned PAM_SUCCESS ∧
    waitpid_answer (.exits 1 PAM_AUTHINFO_UNAVAIL) none = .reaped 1 0x0900 ∧
    (pam_sm_authenticate script0
        (w_scene (.exits 1 PAM_AUTHINFO_UNAVAIL) none 0) 2 argv2).outcome
      = .returned PAM_AUTHINFO_UNAVAIL := by
  decide

/-- C10: after a successful user lookup, a failed allocation makes the function return
`PAM_BUF_ERR` with no `fork` and no `waitpid` in its run, and a failed `fork` makes it
return `PAM_SYSTEM_ERR` with no `waitpid` in its run. -/
theorem resource_failure (script : String) (w : World) (argc : Nat) (argv : Nat → String)
    (hu : w.get_user.1 = PAM_SUCCESS) :
    (w.heap = none →
      (pam_sm_authenticate script w argc argv).outcome = .returned PAM_BUF_ERR ∧
      Call.fork ∉ (pam_sm_authenticate script w argc argv).trace ∧
      Call.waitpid ∉ (pam_sm_authenticate script w argc argv).trace) ∧
    (w.heap.isSome = true → w.fork < 0 →
      (pam_sm_authenticate script w argc argv).outcome = .returned PAM_SYSTEM_ERR ∧
      Call.waitpid ∉ (pam_sm_authenticate script w argc argv).trace) := by
  constructor
  · intro hm
    rw [run_malloc_failed script w argc argv hu hm]
    simp
  · intro hm hf
    rw [run_fork_failed script w argc argv hu hm hf]
    simp

/-- C10, at a world where `malloc` returns `NULL` and at one where `fork` returns -1. -/
theorem resource_failure_witness :
    w_no_memory.get_user.1 = PAM_SUCCESS ∧ w_no_memory.heap = none ∧
    (pam_sm_authenticate script0 w_no_memory 2 argv2).outcome = .returned PAM_BUF_ERR ∧
    w_no_fork.heap.isSome = true ∧ w_no_fork.fork < 0 ∧
    (pam_sm_authenticate script0 w_no_fork 2 argv2).outcome = .returned PAM_SYSTEM_ERR :=
  ⟨rfl, rfl, ((resource_failure script0 w_no_memory 2 argv2 rfl).1 rfl).1,
    rfl, by decide, ((resource_failure script0 w_no_fork 2 argv2 rfl).2 rfl (by decide)).1⟩

end PamFingwit
